import Mathlib

/-!
Verification of the `hass_school_holidays_lu` integration.

The development shallowly embeds the pieces of the integration that the
specification talks about: the calendar entity's event pipeline
(`calendar.py`), the data-update coordinator (`coordinator.py`), the
configuration flow (`config_flow.py`) and the shared constants
(`const.py`).  Python dates are modelled as year/month/day triples with
the lexicographic order Python's `datetime.date` uses, raw JSON event
records as association lists from string keys to string values, and the
`hashlib.sha256(...).hexdigest()` call as a full SHA-256 implementation
over natural numbers.
-/

/-- A calendar date as produced by Python's `datetime.date`: a
year/month/day triple. -/
structure PyDate where
  year : Nat
  month : Nat
  day : Nat
deriving DecidableEq, Repr

/-- Python's `date <= date` comparison: lexicographic on
(year, month, day). -/
def PyDate.leb (a b : PyDate) : Bool :=
  decide (a.year < b.year ∨ (a.year = b.year ∧
    (a.month < b.month ∨ (a.month = b.month ∧ a.day ≤ b.day))))

/-- Python's `date < date` comparison: lexicographic on
(year, month, day). -/
def PyDate.ltb (a b : PyDate) : Bool :=
  decide (a.year < b.year ∨ (a.year = b.year ∧
    (a.month < b.month ∨ (a.month = b.month ∧ a.day < b.day))))

/-- Test for an ASCII digit character. -/
def isDigitChar (c : Char) : Bool := 48 ≤ c.toNat && c.toNat ≤ 57

/-- Numeric value of an ASCII digit character. -/
def digitVal (c : Char) : Nat := c.toNat - 48

/-- Gregorian leap-year test, as in Python's `calendar.isleap`. -/
def isLeapYear (y : Nat) : Bool := (y % 4 == 0 && y % 100 != 0) || y % 400 == 0

/-- Number of days in a month of a given year. -/
def daysInMonth (y m : Nat) : Nat :=
  if m == 2 then (if isLeapYear y then 29 else 28)
  else if m == 4 || m == 6 || m == 9 || m == 11 then 30
  else 31

/-- Python's `date.fromisoformat` on a date-only string: accepts exactly
`YYYY-MM-DD` with a valid calendar date (year at least 1), and fails
(models the raised `ValueError`) on anything else. -/
def parseIsoDate (s : String) : Option PyDate :=
  match s.toList with
  | [y1, y2, y3, y4, h1, m1, m2, h2, d1, d2] =>
    if isDigitChar y1 && isDigitChar y2 && isDigitChar y3 && isDigitChar y4 &&
       h1 == '-' && isDigitChar m1 && isDigitChar m2 && h2 == '-' &&
       isDigitChar d1 && isDigitChar d2 then
      let y := digitVal y1 * 1000 + digitVal y2 * 100 + digitVal y3 * 10 + digitVal y4
      let m := digitVal m1 * 10 + digitVal m2
      let d := digitVal d1 * 10 + digitVal d2
      if 1 ≤ y && 1 ≤ m && m ≤ 12 && 1 ≤ d && d ≤ daysInMonth y m then
        some ⟨y, m, d⟩
      else none
    else none
  | _ => none

/-- Modulus for 32-bit words. -/
def M32 : Nat := 4294967296

/-- Addition modulo 2^32. -/
def add32 (a b : Nat) : Nat := (a + b) % M32

/-- Right rotation of a 32-bit word. -/
def rotr32 (n x : Nat) : Nat := ((x >>> n) ||| (x <<< (32 - n))) % M32

/-- Bitwise complement of a 32-bit word. -/
def not32 (x : Nat) : Nat := x ^^^ (M32 - 1)

/-- SHA-256 big sigma-0 word function. -/
def bsig0 (x : Nat) : Nat := rotr32 2 x ^^^ rotr32 13 x ^^^ rotr32 22 x

/-- SHA-256 big sigma-1 word function. -/
def bsig1 (x : Nat) : Nat := rotr32 6 x ^^^ rotr32 11 x ^^^ rotr32 25 x

/-- SHA-256 small sigma-0 word function. -/
def ssig0 (x : Nat) : Nat := rotr32 7 x ^^^ rotr32 18 x ^^^ (x >>> 3)

/-- SHA-256 small sigma-1 word function. -/
def ssig1 (x : Nat) : Nat := rotr32 17 x ^^^ rotr32 19 x ^^^ (x >>> 10)

/-- SHA-256 choice word function. -/
def chFn (e f g : Nat) : Nat := (e &&& f) ^^^ (not32 e &&& g)

/-- SHA-256 majority word function. -/
def majFn (a b c : Nat) : Nat := (a &&& b) ^^^ (a &&& c) ^^^ (b &&& c)

/-- The 64 SHA-256 round constants, written in decimal. -/
def shaK : List Nat :=
  [1116352408, 1899447441, 3049323471, 3921009573, 961987163, 1508970993,
   2453635748, 2870763221, 3624381080, 310598401, 607225278, 1426881987,
   1925078388, 2162078206, 2614888103, 3248222580, 3835390401, 4022224774,
   264347078, 604807628, 770255983, 1249150122, 1555081692, 1996064986,
   2554220882, 2821834349, 2952996808, 3210313671, 3336571891, 3584528711,
   113926993, 338241895, 666307205, 773529912, 1294757372, 1396182291,
   1695183700, 1986661051, 2177026350, 2456956037, 2730485921, 2820302411,
   3259730800, 3345764771, 3516065817, 3600352804, 4094571909, 275423344,
   430227734, 506948616, 659060556, 883997877, 958139571, 1322822218,
   1537002063, 1747873779, 1955562222, 2024104815, 2227730452, 2361852424,
   2428436474, 2756734187, 3204031479, 3329325298]

/-- The SHA-256 initial hash value, written in decimal. -/
def shaH0 : List Nat :=
  [1779033703, 3144134277, 1013904242, 2773480762,
   1359893119, 2600822924, 528734635, 1541459225]

/-- UTF-8 encoding of one Unicode code point, as a list of byte values. -/
def utf8EncodeCharNat (c : Nat) : List Nat :=
  if c < 0x80 then [c]
  else if c < 0x800 then [0xc0 ||| (c >>> 6), 0x80 ||| (c % 64)]
  else if c < 0x10000 then
    [0xe0 ||| (c >>> 12), 0x80 ||| ((c >>> 6) % 64), 0x80 ||| (c % 64)]
  else
    [0xf0 ||| (c >>> 18), 0x80 ||| ((c >>> 12) % 64), 0x80 ||| ((c >>> 6) % 64), 0x80 ||| (c % 64)]

/-- UTF-8 byte sequence of a string, matching Python's `str.encode("utf-8")`. -/
def strBytes (s : String) : List Nat :=
  (s.toList.map Char.toNat).foldr (fun c acc => utf8EncodeCharNat c ++ acc) []

/-- SHA-256 message padding: append `0x80`, zero bytes up to 56 mod 64, and the
message bit length as 8 big-endian bytes. -/
def shaPad (msg : List Nat) : List Nat :=
  msg ++ [128] ++ List.replicate ((119 - (msg.length % 64)) % 64) 0 ++
    (List.range 8).map (fun i => ((msg.length * 8) >>> (8 * (7 - i))) % 256)

/-- Splits a list into chunks of `n` elements, driven by an explicit fuel so
that the recursion is structural. -/
def chunksOfFuel (n : Nat) : Nat → List Nat → List (List Nat)
  | 0, _ => []
  | _, [] => []
  | fuel + 1, l => l.take n :: chunksOfFuel n fuel (l.drop n)

/-- Big-endian combination of a list of byte values into one number. -/
def bytesToWord (bs : List Nat) : Nat := bs.foldl (fun acc b => acc * 256 + b) 0

/-- The 16 message words of one 64-byte SHA-256 block. -/
def blockWords (block : List Nat) : List Nat :=
  (chunksOfFuel 4 block.length block).map bytesToWord

/-- SHA-256 message-schedule extension of 16 words to 64 words. -/
def shaSchedule (w : List Nat) : List Nat :=
  (List.range 48).foldl
    (fun acc i =>
      acc ++ [(ssig1 (acc.getD (i + 14) 0) + acc.getD (i + 9) 0 +
               ssig0 (acc.getD (i + 1) 0) + acc.getD i 0) % M32])
    w

/-- One SHA-256 compression round on the eight-word working state. -/
def shaRound (st : List Nat) (kw : Nat × Nat) : List Nat :=
  let a := st.getD 0 0
  let b := st.getD 1 0
  let c := st.getD 2 0
  let d := st.getD 3 0
  let e := st.getD 4 0
  let f := st.getD 5 0
  let g := st.getD 6 0
  let h := st.getD 7 0
  let t1 := (h + bsig1 e + chFn e f g + kw.1 + kw.2) % M32
  let t2 := (bsig0 a + majFn a b c) % M32
  [(t1 + t2) % M32, a, b, c, (d + t1) % M32, e, f, g]

/-- SHA-256 compression of one 64-byte block into the running hash value. -/
def shaCompress (h : List Nat) (block : List Nat) : List Nat :=
  let st := ((shaK.zip (shaSchedule (blockWords block))).foldl shaRound h)
  (h.zip st).map (fun p => (p.1 + p.2) % M32)

/-- The eight 32-bit hash words of the SHA-256 digest of a string's UTF-8
bytes. -/
def sha256Words (s : String) : List Nat :=
  let padded := shaPad (strBytes s)
  (chunksOfFuel 64 padded.length padded).foldl shaCompress shaH0

/-- Lowercase hexadecimal digit for a value below 16. -/
def hexDigitChar (n : Nat) : Char := Char.ofNat (if n < 10 then 48 + n else 87 + n)

/-- Eight lowercase hex characters of one 32-bit word, most significant
nibble first. -/
def wordHex (n : Nat) : List Char :=
  (List.range 8).map (fun i => hexDigitChar ((n >>> (28 - 4 * i)) % 16))

/-- Python's `hashlib.sha256(s.encode("utf-8")).hexdigest()`: the SHA-256
digest of a string rendered as 64 lowercase hex characters. -/
def sha256hex (s : String) : String :=
  String.mk ((sha256Words s).foldr (fun w acc => wordHex w ++ acc) [])

/-- A raw JSON event record from the remote dataset: a mapping from string
keys (language codes and the fixed keys `start_date`, `end_date`, `uid`,
`description`, `location`) to string values, modelled as an association
list. -/
abbrev RawEvent := List (String × String)

/-- Python truthiness of an optional string (`dict.get` result): `None` and
the empty string are falsy. -/
def pyTruthy : Option String → Bool
  | none => false
  | some s => !(s == "")

/-- A produced calendar event, mirroring the fields passed to the host's
`CalendarEvent` constructor in `calendar.py`. -/
structure CalendarEvent where
  summary : String
  start : PyDate
  «end» : PyDate
  description : Option String
  location : Option String
  uid : String
deriving DecidableEq, Repr

/-- Outcome of one HTTP GET against the configured URL: either a response
with a status code and (for status 200) the JSON-parsed body, or a raised
transport error carrying its description. -/
inductive FetchOutcome where
  | ok (status : Nat) (body : Option (List RawEvent))
  | exn (msg : String)
deriving DecidableEq, Repr

/-- The raw events obtained from the primary URL attempt in
`calendar.py`: the parsed body on a 200 status, and nothing (the local
`raw_events` stays `None`) on a non-200 status or a raised error. -/
def fetchBody : FetchOutcome → Option (List RawEvent)
  | .ok s b => if s = 200 then b else none
  | .exn _ => none

/-- Scan of an ordered list of supported language codes over a record,
returning the first present value and the sentinel string when none is
present; this is the shared step 3 and step 4 of both
`get_localized_summary` implementations. -/
def scan_supported (langs : List String) (data : RawEvent) : String :=
  match langs with
  | [] => "Unknown Event"
  | l :: rest =>
    match List.lookup l data with
    | some v => v
    | none => scan_supported rest data

namespace const

/-- The `DEFAULT_URL` constant of `const.py`: the published data.public.lu
dataset URL. -/
def DEFAULT_URL : String :=
  "https://data.public.lu/en/datasets/r/4902766f-1cd3-404c-ab6a-327ec104d564"

/-- The `SUPPORTED_LANGUAGES` constant of `const.py` (uppercase codes). -/
def SUPPORTED_LANGUAGES : List String := ["EN", "FR", "DE", "LB"]

end const

namespace Calendar

/-- The `DEFAULT_URL` constant of `calendar.py` (a placeholder URL). -/
def DEFAULT_URL : String := "https://example.com/events.json"

/-- The `SUPPORTED_LANGUAGES` constant of `calendar.py` (lowercase codes). -/
def SUPPORTED_LANGUAGES : List String := ["en", "fr", "de", "lb"]

/-- The `_get_localized_summary` helper of `calendar.py`: preferred
language, then the fallback language (`"en"` at its call site), then the
first hit scanning `calendar.py`'s lowercase `SUPPORTED_LANGUAGES`, then
the sentinel `"Unknown Event"`. -/
def get_localized_summary (localized_summary_data : RawEvent)
    (preferred_lang fallback_lang : String) : String :=
  match List.lookup preferred_lang localized_summary_data with
  | some v => v
  | none =>
    match List.lookup fallback_lang localized_summary_data with
    | some v => v
    | none => scan_supported SUPPORTED_LANGUAGES localized_summary_data

/-- Lowercasing of one character as Python's `str.lower` does on the ASCII
range, which covers every language code the configuration schema admits. -/
def pyLowerChar (c : Char) : Char :=
  if 65 ≤ c.toNat && c.toNat ≤ 90 then Char.ofNat (c.toNat + 32) else c

/-- Python's `str.lower` on ASCII strings. -/
def pyLower (s : String) : String := String.mk (s.toList.map pyLowerChar)

/-- The preferred-language computation of `async_setup_entry` in
`calendar.py`: `config_entry.data.get(CONF_LANGUAGE, "EN").lower()`. -/
def setup_preferred_lang (configured : Option String) : String :=
  pyLower (configured.getD "EN")

end Calendar

/-- One iteration of the per-record loop in `calendar.py`'s
`async_get_events`, parameterised by the summary-resolution function:
resolve the summary, skip the record when the summary, start string or end
string is falsy, skip on a date-parse failure, skip when the parsed
interval is outside the query window (`end_dt <= start_date.date() or
start_dt >= end_date.date()`), generate the SHA-256 uid when the raw uid
is falsy, and otherwise produce the event. -/
def processRecordWith (summarize : RawEvent → String) (qs qe : PyDate)
    (raw : RawEvent) : Option CalendarEvent :=
  let start_dt_str := List.lookup "start_date" raw
  let end_dt_str := List.lookup "end_date" raw
  let uid := List.lookup "uid" raw
  let summary := summarize raw
  if !(!(summary == "") && pyTruthy start_dt_str && pyTruthy end_dt_str) then none
  else
    match parseIsoDate (start_dt_str.getD ""), parseIsoDate (end_dt_str.getD "") with
    | some start_dt, some end_dt =>
      if PyDate.leb end_dt qs || PyDate.leb qe start_dt then none
      else
        some
          { summary := summary
            start := start_dt
            «end» := end_dt
            description := List.lookup "description" raw
            location := List.lookup "location" raw
            uid :=
              if pyTruthy uid then uid.getD ""
              else sha256hex (summary ++ start_dt_str.getD "" ++ end_dt_str.getD "") }
    | _, _ => none

namespace Calendar

/-- The normalization-and-filter loop of `async_get_events` in
`calendar.py` over a list of raw records, using `calendar.py`'s own
`_get_localized_summary` with its default fallback `"en"`. -/
def normalize_events (preferred_lang : String) (qs qe : PyDate)
    (raws : List RawEvent) : List CalendarEvent :=
  raws.filterMap
    (processRecordWith (fun r => get_localized_summary r preferred_lang "en") qs qe)

/-- The `async_get_events` method of `calendar.py`'s entity: take the raw
events from the URL fetch when it succeeded, otherwise from the local
fallback file (`fileData` is the outcome of
`_async_load_events_from_file`, `none` when the file is missing or
unparseable); with no data from either source return the empty list,
otherwise run the normalization-and-filter loop. -/
def async_get_events (preferred_lang : String) (qs qe : PyDate)
    (fetch : FetchOutcome) (fileData : Option (List RawEvent)) : List CalendarEvent :=
  let raw_events : Option (List RawEvent) :=
    match fetchBody fetch with
    | some r => some r
    | none => fileData
  match raw_events with
  | none => []
  | some raws => normalize_events preferred_lang qs qe raws

end Calendar

namespace Coordinator

/-- The `get_localized_summary` method of `coordinator.py`: preferred
language, then the fallback language (default `"EN"`), then the first hit
scanning `const.SUPPORTED_LANGUAGES` (uppercase), then the sentinel
`"Unknown Event"`. -/
def get_localized_summary (localized_summary_data : RawEvent)
    (preferred_lang fallback_lang : String) : String :=
  match List.lookup preferred_lang localized_summary_data with
  | some v => v
  | none =>
    match List.lookup fallback_lang localized_summary_data with
    | some v => v
    | none => scan_supported const.SUPPORTED_LANGUAGES localized_summary_data

/-- The typed failure raised by `_async_update_data`
(`UpdateFailed`), with the payload each raise site carries: the HTTP
status code on a non-200 response, the underlying error description on a
network error, and the defensive empty-body case. -/
inductive UpdateFailedReason where
  | statusFail (status : Nat)
  | networkFail (desc : String)
  | emptyBody
deriving DecidableEq, Repr

/-- The `_async_update_data` method of `coordinator.py`: on a 200 response
return the parsed JSON body as the new raw dataset, raise `UpdateFailed`
with the status code on a non-200 response, raise it with the error
description on a network error, and raise it when the body is missing
after a reported success. -/
def async_update_data (fetch : FetchOutcome) :
    Except UpdateFailedReason (List RawEvent) :=
  match fetch with
  | .ok s b =>
    if s = 200 then
      match b with
      | some raws => .ok raws
      | none => .error .emptyBody
    else .error (.statusFail s)
  | .exn msg => .error (.networkFail msg)

end Coordinator

/-- State held for the coordinator by the host's polling framework: the
last successfully fetched raw dataset, absent before the first success. -/
structure CoordState where
  data : Option (List RawEvent)
deriving DecidableEq, Repr

/-- Modelled from the spec: the host's polling coordinator (an external
collaborator whose code is not under src) stores the value returned by
`_async_update_data` as the new raw dataset on success and keeps the
previous dataset unchanged when the update raises the "update failed"
signal (spec sections 4.1 and 7). -/
def coordinator_apply_update (st : CoordState) (fetch : FetchOutcome) : CoordState :=
  match Coordinator.async_update_data fetch with
  | .ok raws => ⟨some raws⟩
  | .error _ => st

/-- Modelled from the spec: the coordinator-based entity adapter, whose
code is not under src, rebuilds its normalized event cache from the
coordinator's raw dataset and answers range queries against it (spec
sections 2, 4.3 and 4.4), resolving summaries with the coordinator's
`get_localized_summary` and its default fallback `"EN"`. -/
def entity_range_query (preferred_lang : String) (st : CoordState)
    (qs qe : PyDate) : List CalendarEvent :=
  match st.data with
  | none => []
  | some raws =>
    raws.filterMap
      (processRecordWith (fun r => Coordinator.get_localized_summary r preferred_lang "EN") qs qe)

namespace ConfigFlow

/-- The `SUPPORTED_LANGUAGES` constant of `config_flow.py`. -/
def SUPPORTED_LANGUAGES : List String := ["EN", "FR", "DE", "LB"]

/-- The `STATIC_URL` constant of `config_flow.py`. -/
def STATIC_URL : String := "https://example.com/events.json"

/-- Result of a configuration-flow step, mirroring the three outcomes
`async_step_user` can produce. -/
inductive FlowResult where
  | abort (reason : String)
  | create_entry (title url language : String)
  | show_form (step_id : String)
deriving DecidableEq, Repr

/-- The `async_step_user` method of `config_flow.py`: abort with
`single_instance_allowed` when any config entry already exists, create the
entry from the validated language selection and `STATIC_URL` when input
was submitted, and otherwise show the form.  `current_entries` is the
number of existing config entries. -/
def async_step_user (current_entries : Nat) (user_input : Option String) : FlowResult :=
  if current_entries ≠ 0 then .abort "single_instance_allowed"
  else
    match user_input with
    | some selected_lang =>
      .create_entry ("School Holidays LU (" ++ selected_lang ++ ")") STATIC_URL selected_lang
    | none => .show_form "user"

end ConfigFlow

/-- The range-overlap test exactly as the spec words it: the event is
returned when `event.end >= query.start_date AND event.start <=
query.end_date`, inclusive on both ends. -/
def spec_overlap_test (estart eend qs qe : PyDate) : Bool :=
  PyDate.leb qs eend && PyDate.leb estart qe

theorem PyDate.ltb_eq_not_leb (a b : PyDate) : PyDate.ltb a b = !PyDate.leb b a := by
  cases a; cases b
  simp only [PyDate.ltb, PyDate.leb, ← decide_not, decide_eq_decide]
  omega

theorem parseIsoDate_ne_empty {s : String} {d : PyDate} (h : parseIsoDate s = some d) :
    s ≠ "" := by
  intro heq
  subst heq
  have hnone : parseIsoDate "" = none := by decide
  exact Option.noConfusion (hnone.symm.trans h)

example : parseIsoDate "2025-07-01" = some ⟨2025, 7, 1⟩ := by decide
example : parseIsoDate "not-a-date" = none := by decide
example : parseIsoDate "2025-02-30" = none := by decide
example : parseIsoDate "2024-02-29" = some ⟨2024, 2, 29⟩ := by decide

theorem shaRound_length (st : List Nat) (kw : Nat × Nat) : (shaRound st kw).length = 8 := rfl

theorem foldl_shaRound_length (l : List (Nat × Nat)) (st : List Nat) (h : st.length = 8) :
    (l.foldl shaRound st).length = 8 := by
  induction l generalizing st with
  | nil => simpa using h
  | cons a t ih => exact ih _ (shaRound_length _ _)

theorem shaCompress_length (h block : List Nat) (hh : h.length = 8) :
    (shaCompress h block).length = 8 := by
  unfold shaCompress
  rw [List.length_map, List.length_zip, hh, foldl_shaRound_length _ _ hh]
  rfl

theorem foldl_shaCompress_length (bs : List (List Nat)) (h : List Nat) (hh : h.length = 8) :
    (bs.foldl shaCompress h).length = 8 := by
  induction bs generalizing h with
  | nil => simpa using hh
  | cons b t ih => exact ih _ (shaCompress_length _ _ hh)

theorem sha256Words_length (s : String) : (sha256Words s).length = 8 :=
  foldl_shaCompress_length _ _ rfl

theorem wordHex_length (n : Nat) : (wordHex n).length = 8 := by
  simp [wordHex]

theorem foldr_wordHex_length (l : List Nat) :
    (l.foldr (fun w acc => wordHex w ++ acc) []).length = 8 * l.length := by
  induction l with
  | nil => simp
  | cons a t ih =>
    simp only [List.foldr_cons, List.length_append, wordHex_length, ih, List.length_cons]
    omega

theorem sha256hex_length (s : String) : (sha256hex s).length = 64 := by
  have h : (sha256hex s).length =
      ((sha256Words s).foldr (fun w acc => wordHex w ++ acc) []).length := rfl
  rw [h, foldr_wordHex_length, sha256Words_length]

theorem filterMap_singleton {α β : Type} (f : α → Option β) (a : α) :
    List.filterMap f [a] = (f a).toList := by
  cases h : f a <;> simp [List.filterMap_cons, h]

theorem processRecordWith_eq (summarize : RawEvent → String) (qs qe : PyDate)
    (raw : RawEvent) {ss es : String} {sd ed : PyDate}
    (hs : List.lookup "start_date" raw = some ss)
    (he : List.lookup "end_date" raw = some es)
    (hsum : summarize raw ≠ "")
    (hps : parseIsoDate ss = some sd) (hpe : parseIsoDate es = some ed) :
    processRecordWith summarize qs qe raw =
      (if PyDate.leb ed qs || PyDate.leb qe sd then none
       else some
        { summary := summarize raw
          start := sd
          «end» := ed
          description := List.lookup "description" raw
          location := List.lookup "location" raw
          uid :=
            if pyTruthy (List.lookup "uid" raw) then (List.lookup "uid" raw).getD ""
            else sha256hex (summarize raw ++ ss ++ es) }) := by
  have h1 : (summarize raw == "") = false := beq_eq_false_iff_ne.mpr hsum
  have h2 : (ss == "") = false := beq_eq_false_iff_ne.mpr (parseIsoDate_ne_empty hps)
  have h3 : (es == "") = false := beq_eq_false_iff_ne.mpr (parseIsoDate_ne_empty hpe)
  simp only [processRecordWith, hs, he, pyTruthy, Option.getD_some, h1, h2, h3,
    Bool.not_false, Bool.and_self, Bool.and_true, Bool.true_and, Bool.not_true,
    Bool.false_eq_true, if_false, hps, hpe]

/-- C3: summary resolution follows exactly the order preferred language,
then the fallback key "EN", then the first present key among EN, FR, DE,
LB in that order, then the sentinel "Unknown Event"; a mapping containing
only LB resolves to the LB value, and a mapping with none of these keys
resolves to "Unknown Event". -/
theorem C3_resolution_order (data : RawEvent) (pl v : String) :
    (List.lookup pl data = some v →
      Coordinator.get_localized_summary data pl "EN" = v) ∧
    (List.lookup pl data = none → List.lookup "EN" data = some v →
      Coordinator.get_localized_summary data pl "EN" = v) ∧
    (List.lookup pl data = none → List.lookup "EN" data = none →
      List.lookup "FR" data = some v →
      Coordinator.get_localized_summary data pl "EN" = v) ∧
    (List.lookup pl data = none → List.lookup "EN" data = none →
      List.lookup "FR" data = none → List.lookup "DE" data = some v →
      Coordinator.get_localized_summary data pl "EN" = v) ∧
    (List.lookup pl data = none → List.lookup "EN" data = none →
      List.lookup "FR" data = none → List.lookup "DE" data = none →
      List.lookup "LB" data = some v →
      Coordinator.get_localized_summary data pl "EN" = v) ∧
    (List.lookup pl data = none → List.lookup "EN" data = none →
      List.lookup "FR" data = none → List.lookup "DE" data = none →
      List.lookup "LB" data = none →
      Coordinator.get_localized_summary data pl "EN" = "Unknown Event") ∧
    (∀ w : String, Coordinator.get_localized_summary [("LB", w)] pl "EN" = w) := by
  refine ⟨?_, ?_, ?_, ?_, ?_, ?_, ?_⟩
  · intro h
    simp [Coordinator.get_localized_summary, h]
  · intro h1 h2
    simp [Coordinator.get_localized_summary, h1, h2]
  · intro h1 h2 h3
    simp [Coordinator.get_localized_summary, scan_supported, const.SUPPORTED_LANGUAGES,
      h1, h2, h3]
  · intro h1 h2 h3 h4
    simp [Coordinator.get_localized_summary, scan_supported, const.SUPPORTED_LANGUAGES,
      h1, h2, h3, h4]
  · intro h1 h2 h3 h4 h5
    simp [Coordinator.get_localized_summary, scan_supported, const.SUPPORTED_LANGUAGES,
      h1, h2, h3, h4, h5]
  · intro h1 h2 h3 h4 h5
    simp [Coordinator.get_localized_summary, scan_supported, const.SUPPORTED_LANGUAGES,
      h1, h2, h3, h4, h5]
  · intro w
    by_cases h : pl = "LB"
    · simp [Coordinator.get_localized_summary, h]
    · have hb : (pl == "LB") = false := beq_eq_false_iff_ne.mpr h
      simp [Coordinator.get_localized_summary, scan_supported, const.SUPPORTED_LANGUAGES,
        List.lookup, hb]

/-- Witness for C3: a record holding only the preferred language resolves
to its value, and a record with none of the recognized keys resolves to
the sentinel. -/
theorem C3_resolution_order_witness :
    Coordinator.get_localized_summary [("FR", "Vacances")] "FR" "EN" = "Vacances" ∧
    Coordinator.get_localized_summary [("xx", "?")] "zz" "EN" = "Unknown Event" := by
  constructor
  · exact (C3_resolution_order [("FR", "Vacances")] "FR" "Vacances").1 (by decide)
  · exact (C3_resolution_order [("xx", "?")] "zz" "?").2.2.2.2.2.1
      (by decide) (by decide) (by decide) (by decide) (by decide)

/-- C5: the coordinator's update raises the typed "update failed" signal
exactly on a non-200 status (carrying the status code), on a network error
(carrying the error description), or on a missing body after a reported
success; on a 200 response with a body it returns the parsed body as the
new raw dataset, and these are the only successful outcomes. -/
theorem C5_update_failure (fetch : FetchOutcome) (raws : List RawEvent) :
    (Coordinator.async_update_data fetch = .ok raws ↔ fetch = .ok 200 (some raws)) ∧
    (∀ s b, fetch = .ok s b → s ≠ 200 →
      Coordinator.async_update_data fetch = .error (.statusFail s)) ∧
    (∀ m, fetch = .exn m →
      Coordinator.async_update_data fetch = .error (.networkFail m)) ∧
    (fetch = .ok 200 none → Coordinator.async_update_data fetch = .error .emptyBody) := by
  refine ⟨?_, ?_, ?_, ?_⟩
  · cases fetch with
    | ok s b =>
      by_cases h : s = 200
      · subst h
        cases b <;> simp [Coordinator.async_update_data]
      · simp [Coordinator.async_update_data, h]
    | exn m => simp [Coordinator.async_update_data]
  · intro s b hf h
    subst hf
    simp [Coordinator.async_update_data, h]
  · intro m hf
    subst hf
    simp [Coordinator.async_update_data]
  · intro hf
    subst hf
    simp [Coordinator.async_update_data]

/-- Witness for C5: a 404 response fails with the status code, a network
error fails with its description, an empty 200 body fails defensively, and
a 200 response with a body succeeds with that body. -/
theorem C5_update_failure_witness :
    Coordinator.async_update_data (.ok 404 none) = .error (.statusFail 404) ∧
    Coordinator.async_update_data (.exn "timeout") = .error (.networkFail "timeout") ∧
    Coordinator.async_update_data (.ok 200 none) = .error .emptyBody ∧
    Coordinator.async_update_data (.ok 200 (some [])) = .ok [] := by
  refine ⟨?_, ?_, ?_, ?_⟩
  · exact (C5_update_failure (.ok 404 none) []).2.1 404 none rfl (by decide)
  · exact (C5_update_failure (.exn "timeout") []).2.2.1 "timeout" rfl
  · exact (C5_update_failure (.ok 200 none) []).2.2.2 rfl
  · exact (C5_update_failure (.ok 200 (some [])) []).1.mpr rfl

/-- C8: while a config entry already exists every configuration attempt
aborts with the "single instance allowed" outcome and no entry is created;
a first attempt with a selected language creates the entry. -/
theorem C8_single_instance (n : Nat) (input : Option String) (lang : String) :
    (n ≠ 0 → ConfigFlow.async_step_user n input = .abort "single_instance_allowed") ∧
    (n ≠ 0 → ∀ t u l, ConfigFlow.async_step_user n input ≠ .create_entry t u l) ∧
    ConfigFlow.async_step_user 0 (some lang) =
      .create_entry ("School Holidays LU (" ++ lang ++ ")") ConfigFlow.STATIC_URL lang := by
  refine ⟨?_, ?_, ?_⟩
  · intro h
    simp [ConfigFlow.async_step_user, h]
  · intro h t u l
    simp [ConfigFlow.async_step_user, h]
  · simp [ConfigFlow.async_step_user]

/-- Witness for C8: with one existing entry the flow aborts, and with no
entries a submitted language creates the entry. -/
theorem C8_single_instance_witness :
    ConfigFlow.async_step_user 1 (some "FR") = .abort "single_instance_allowed" ∧
    ConfigFlow.async_step_user 0 (some "FR") =
      .create_entry "School Holidays LU (FR)" ConfigFlow.STATIC_URL "FR" := by
  constructor
  · exact (C8_single_instance 1 (some "FR") "FR").1 (by decide)
  · exact (C8_single_instance 1 (some "FR") "FR").2.2

/-- C9: the configuration flow stores `config_flow.py`'s `STATIC_URL`
(`https://example.com/events.json`) in the created entry, which is not the
published dataset URL `const.DEFAULT_URL` (`https://data.public.lu/...`)
that the claim and the spec name as the stored url; the language part of
the claim holds (selected language stored, default "EN" in the schema). -/
theorem C9_url_mismatch :
    ConfigFlow.async_step_user 0 (some "EN") =
      .create_entry "School Holidays LU (EN)"
        "https://example.com/events.json" "EN" ∧
    ConfigFlow.STATIC_URL ≠ const.DEFAULT_URL := by
  constructor
  · rfl
  · decide

/-- C2: `async_setup_entry` in `calendar.py` lowercases the configured
language instead of normalizing it to the payload's uppercase convention,
so for a raw record whose language keys are the uppercase codes the
lookup misses the preferred language and falls through to the sentinel
"Unknown Event" instead of returning the preferred value. -/
theorem C2_lowercase_defeats_lookup :
    Calendar.setup_preferred_lang (some "EN") = "en" ∧
    Calendar.get_localized_summary
      [("EN", "Summer Break"), ("start_date", "2025-07-01"), ("end_date", "2025-09-01")]
      (Calendar.setup_preferred_lang (some "EN")) "en" = "Unknown Event" := by
  constructor
  · rfl
  · rfl

/-- C6: after a successful fetch establishing a raw dataset, a failing
fetch (any update that raises the "update failed" signal) leaves the
stored dataset unchanged, and range queries still answer from the events
derived from that retained dataset. -/
theorem C6_failure_retains_cache (st : CoordState) (f1 f2 : FetchOutcome)
    (raws : List RawEvent) (e : Coordinator.UpdateFailedReason)
    (pl : String) (qs qe : PyDate)
    (h1 : Coordinator.async_update_data f1 = .ok raws)
    (h2 : Coordinator.async_update_data f2 = .error e) :
    coordinator_apply_update (coordinator_apply_update st f1) f2 =
      coordinator_apply_update st f1 ∧
    entity_range_query pl (coordinator_apply_update (coordinator_apply_update st f1) f2) qs qe =
      entity_range_query pl ⟨some raws⟩ qs qe := by
  have hstep1 : coordinator_apply_update st f1 = ⟨some raws⟩ := by
    simp [coordinator_apply_update, h1]
  have hstep2 : coordinator_apply_update (coordinator_apply_update st f1) f2 =
      coordinator_apply_update st f1 := by
    simp [coordinator_apply_update, h2]
  exact ⟨hstep2, by rw [hstep2, hstep1]⟩

/-- Witness for C6: a successful fetch of a one-record dataset followed by
a network failure keeps the dataset, and the range query still returns the
event built from it. -/
theorem C6_failure_retains_cache_witness :
    coordinator_apply_update
      (coordinator_apply_update ⟨none⟩
        (.ok 200 (some [[("EN", "Summer Break"), ("start_date", "2025-07-01"),
          ("end_date", "2025-09-01"), ("uid", "u1")]])))
      (.exn "connection reset") =
      ⟨some [[("EN", "Summer Break"), ("start_date", "2025-07-01"),
        ("end_date", "2025-09-01"), ("uid", "u1")]]⟩ ∧
    (entity_range_query "EN"
      (coordinator_apply_update
        (coordinator_apply_update ⟨none⟩
          (.ok 200 (some [[("EN", "Summer Break"), ("start_date", "2025-07-01"),
            ("end_date", "2025-09-01"), ("uid", "u1")]])))
        (.exn "connection reset"))
      ⟨2025, 6, 15⟩ ⟨2025, 7, 15⟩).length = 1 := by
  have h := C6_failure_retains_cache ⟨none⟩
    (.ok 200 (some [[("EN", "Summer Break"), ("start_date", "2025-07-01"),
      ("end_date", "2025-09-01"), ("uid", "u1")]]))
    (.exn "connection reset")
    [[("EN", "Summer Break"), ("start_date", "2025-07-01"),
      ("end_date", "2025-09-01"), ("uid", "u1")]]
    (.networkFail "connection reset") "EN" ⟨2025, 6, 15⟩ ⟨2025, 7, 15⟩ rfl rfl
  refine ⟨?_, ?_⟩
  · rw [h.1]
    simp [coordinator_apply_update, Coordinator.async_update_data]
  · rw [h.2]
    rfl

/-- C10: in the calendar-entity variant, when the URL fetch yields no data
(non-200 status or a raised network error) the range query answers from
the local fallback file's raw events, and when that fallback is missing or
unparseable it returns the empty list without raising. -/
theorem C10_file_fallback (pl : String) (qs qe : PyDate) (s : Nat)
    (b : Option (List RawEvent)) (m : String) (fd : Option (List RawEvent))
    (hs : s ≠ 200) :
    Calendar.async_get_events pl qs qe (.ok s b) fd =
      (fd.map (Calendar.normalize_events pl qs qe)).getD [] ∧
    Calendar.async_get_events pl qs qe (.exn m) fd =
      (fd.map (Calendar.normalize_events pl qs qe)).getD [] ∧
    Calendar.async_get_events pl qs qe (.ok s b) none = [] ∧
    Calendar.async_get_events pl qs qe (.exn m) none = [] := by
  refine ⟨?_, ?_, ?_, ?_⟩ <;>
    cases fd <;>
      simp [Calendar.async_get_events, fetchBody, hs]

/-- Witness for C10: a 404 response with a present fallback file answers
from the file, and a network error with a missing fallback file yields the
empty list. -/
theorem C10_file_fallback_witness :
    Calendar.async_get_events "en" ⟨2025, 6, 15⟩ ⟨2025, 7, 15⟩ (.ok 404 none)
      (some [[("en", "Summer Break"), ("start_date", "2025-07-01"),
        ("end_date", "2025-09-01"), ("uid", "u1")]]) =
      Calendar.normalize_events "en" ⟨2025, 6, 15⟩ ⟨2025, 7, 15⟩
        [[("en", "Summer Break"), ("start_date", "2025-07-01"),
          ("end_date", "2025-09-01"), ("uid", "u1")]] ∧
    Calendar.async_get_events "en" ⟨2025, 6, 15⟩ ⟨2025, 7, 15⟩
      (.exn "connection refused") none = [] := by
  constructor
  · exact (C10_file_fallback "en" ⟨2025, 6, 15⟩ ⟨2025, 7, 15⟩ 404 none
      "connection refused"
      (some [[("en", "Summer Break"), ("start_date", "2025-07-01"),
        ("end_date", "2025-09-01"), ("uid", "u1")]]) (by decide)).1
  · exact (C10_file_fallback "en" ⟨2025, 6, 15⟩ ⟨2025, 7, 15⟩ 404 none
      "connection refused" none (by decide)).2.2.2

theorem async_get_events_single (pl : String) (qs qe : PyDate) (raw : RawEvent)
    (fd : Option (List RawEvent)) :
    Calendar.async_get_events pl qs qe (.ok 200 (some [raw])) fd =
      (processRecordWith (fun r => Calendar.get_localized_summary r pl "en") qs qe raw).toList := by
  simp [Calendar.async_get_events, Calendar.normalize_events, fetchBody, filterMap_singleton]

/-- C1 (amended): the range query returns a validly parsed event exactly
when `event.end > query.start_date.date()` and `event.start <
query.end_date.date()` — strict inequalities on both ends, so an event
whose interval merely touches a window boundary is excluded, not
included. -/
theorem C1_strict_overlap (raw : RawEvent) (pl : String) (fd : Option (List RawEvent))
    (qs qe sd ed : PyDate) (ss es : String)
    (hs : List.lookup "start_date" raw = some ss)
    (he : List.lookup "end_date" raw = some es)
    (hsum : Calendar.get_localized_summary raw pl "en" ≠ "")
    (hps : parseIsoDate ss = some sd) (hpe : parseIsoDate es = some ed) :
    (∃ e, Calendar.async_get_events pl qs qe (.ok 200 (some [raw])) fd = [e] ∧
        e.start = sd ∧ e.«end» = ed) ↔
      (PyDate.ltb qs ed = true ∧ PyDate.ltb sd qe = true) := by
  rw [async_get_events_single, processRecordWith_eq _ _ _ _ hs he hsum hps hpe]
  split
  next hcond =>
    simp only [Option.toList_none]
    constructor
    · rintro ⟨e, he', -⟩
      cases he'
    · rintro ⟨h1, h2⟩
      rw [PyDate.ltb_eq_not_leb, Bool.not_eq_true'] at h1 h2
      simp [h1, h2] at hcond
  next hcond =>
    simp only [Bool.not_eq_true, Bool.or_eq_false_iff] at hcond
    simp only [Option.toList_some]
    constructor
    · intro _
      rw [PyDate.ltb_eq_not_leb, PyDate.ltb_eq_not_leb, hcond.1, hcond.2]
      exact ⟨rfl, rfl⟩
    · intro _
      exact ⟨_, rfl, rfl, rfl⟩

/-- Witness for C1: the spec's own example window strictly overlapping the
event interval returns the event. -/
theorem C1_strict_overlap_witness :
    ∃ e, Calendar.async_get_events "en" ⟨2025, 6, 15⟩ ⟨2025, 7, 15⟩
        (.ok 200 (some [[("en", "Summer Break"), ("start_date", "2025-07-01"),
          ("end_date", "2025-09-01"), ("uid", "u1")]])) none = [e] ∧
      e.start = ⟨2025, 7, 1⟩ ∧ e.«end» = ⟨2025, 9, 1⟩ := by
  exact (C1_strict_overlap
    [("en", "Summer Break"), ("start_date", "2025-07-01"),
      ("end_date", "2025-09-01"), ("uid", "u1")]
    "en" none ⟨2025, 6, 15⟩ ⟨2025, 7, 15⟩ ⟨2025, 7, 1⟩ ⟨2025, 9, 1⟩
    "2025-07-01" "2025-09-01" rfl rfl (by decide) (by decide) (by decide)).mpr
    (by decide)

/-- Counterexample for C1 as stated: for an event ending 2025-09-01 and a
query window starting 2025-09-01, the spec's inclusive test says the event
is returned, but the code excludes it (`end_dt <= start_date.date()`); the
same event is returned once the window starts a day earlier, so only the
inclusive boundary is at fault. -/
theorem C1_counterexample :
    spec_overlap_test ⟨2025, 7, 1⟩ ⟨2025, 9, 1⟩ ⟨2025, 9, 1⟩ ⟨2025, 10, 1⟩ = true ∧
    Calendar.async_get_events "en" ⟨2025, 9, 1⟩ ⟨2025, 10, 1⟩
      (.ok 200 (some [[("en", "Summer Break"), ("start_date", "2025-07-01"),
        ("end_date", "2025-09-01"), ("uid", "u1")]])) none = [] ∧
    (Calendar.async_get_events "en" ⟨2025, 8, 31⟩ ⟨2025, 10, 1⟩
      (.ok 200 (some [[("en", "Summer Break"), ("start_date", "2025-07-01"),
        ("end_date", "2025-09-01"), ("uid", "u1")]])) none).length = 1 := by
  refine ⟨by decide, by rfl, by rfl⟩

/-- C4: for a validly parsed in-window record, a supplied non-empty uid is
used verbatim in the produced event; with no uid in the record, the uid is
the SHA-256 digest of the concatenation of the resolved summary, the raw
start string and the raw end string, rendered as a 64-character hex
string.  Determinism is immediate since the pipeline is a pure
function. -/
theorem C4_uid_resolution (raw : RawEvent) (pl : String) (fd : Option (List RawEvent))
    (qs qe sd ed : PyDate) (ss es : String)
    (hs : List.lookup "start_date" raw = some ss)
    (he : List.lookup "end_date" raw = some es)
    (hsum : Calendar.get_localized_summary raw pl "en" ≠ "")
    (hps : parseIsoDate ss = some sd) (hpe : parseIsoDate es = some ed)
    (hr : (PyDate.leb ed qs || PyDate.leb qe sd) = false) :
    (∀ u, List.lookup "uid" raw = some u → u ≠ "" →
      ∃ e, Calendar.async_get_events pl qs qe (.ok 200 (some [raw])) fd = [e] ∧
        e.uid = u) ∧
    (List.lookup "uid" raw = none →
      ∃ e, Calendar.async_get_events pl qs qe (.ok 200 (some [raw])) fd = [e] ∧
        e.uid = sha256hex (Calendar.get_localized_summary raw pl "en" ++ ss ++ es) ∧
        e.uid.length = 64) := by
  rw [async_get_events_single, processRecordWith_eq _ _ _ _ hs he hsum hps hpe]
  rw [hr]
  simp only [Bool.false_eq_true, if_false, Option.toList_some]
  constructor
  · intro u hu hne
    refine ⟨_, rfl, ?_⟩
    simp [hu, pyTruthy, beq_eq_false_iff_ne.mpr hne]
  · intro hu
    refine ⟨_, rfl, ?_, ?_⟩
    · simp [hu, pyTruthy]
    · simp only [hu, pyTruthy]
      exact sha256hex_length _

/-- Witness for C4: the spec's round-trip record, which carries no uid,
yields the SHA-256 hex uid of "Summer Break" concatenated with the raw
date strings, of length 64. -/
theorem C4_uid_resolution_witness :
    ∃ e, Calendar.async_get_events "en" ⟨2025, 6, 15⟩ ⟨2025, 7, 15⟩
        (.ok 200 (some [[("en", "Summer Break"), ("start_date", "2025-07-01"),
          ("end_date", "2025-09-01")]])) none = [e] ∧
      e.uid = sha256hex ("Summer Break" ++ "2025-07-01" ++ "2025-09-01") ∧
      e.uid.length = 64 := by
  exact (C4_uid_resolution
    [("en", "Summer Break"), ("start_date", "2025-07-01"), ("end_date", "2025-09-01")]
    "en" none ⟨2025, 6, 15⟩ ⟨2025, 7, 15⟩ ⟨2025, 7, 1⟩ ⟨2025, 9, 1⟩
    "2025-07-01" "2025-09-01" rfl rfl (by decide) (by decide) (by decide)
    (by decide)).2 rfl

/-- C7: a record whose start or end date string is missing, or present but
failing ISO-8601 parsing, is skipped without affecting its sibling
records: the batch result with the bad record present equals the batch
result with it removed. -/
theorem C7_record_isolation (pre post : List RawEvent) (r : RawEvent) (pl : String)
    (qs qe : PyDate) (fd : Option (List RawEvent))
    (hbad :
      List.lookup "start_date" r = none ∨
      List.lookup "end_date" r = none ∨
      (∃ ss, List.lookup "start_date" r = some ss ∧ parseIsoDate ss = none) ∨
      (∃ es, List.lookup "end_date" r = some es ∧ parseIsoDate es = none)) :
    Calendar.async_get_events pl qs qe (.ok 200 (some (pre ++ r :: post))) fd =
      Calendar.async_get_events pl qs qe (.ok 200 (some (pre ++ post))) fd := by
  have hnone : processRecordWith
      (fun x => Calendar.get_localized_summary x pl "en") qs qe r = none := by
    rcases hbad with h | h | ⟨ss, hlk, hparse⟩ | ⟨es, hlk, hparse⟩
    · simp [processRecordWith, h, pyTruthy]
    · simp [processRecordWith, h, pyTruthy]
    · simp only [processRecordWith, hlk, Option.getD_some]
      split
      · rfl
      · simp [hparse]
    · simp only [processRecordWith, hlk, Option.getD_some]
      split
      · rfl
      · cases hfirst : parseIsoDate ((List.lookup "start_date" r).getD "") <;>
          simp [hparse, hfirst]
  simp [Calendar.async_get_events, Calendar.normalize_events, fetchBody,
    List.filterMap_append, List.filterMap_cons, hnone]

/-- Witness for C7: a batch of six records whose middle four have a missing
start date, a missing end date, a malformed start date and a malformed end
date respectively produces exactly the two events of the first and last
records. -/
theorem C7_record_isolation_witness :
    Calendar.async_get_events "en" ⟨2025, 1, 1⟩ ⟨2026, 1, 1⟩
      (.ok 200 (some [
        [("en", "Carnival"), ("start_date", "2025-02-15"), ("end_date", "2025-02-23"), ("uid", "u1")],
        [("en", "NoStart"), ("end_date", "2025-04-02"), ("uid", "u2")],
        [("en", "NoEnd"), ("start_date", "2025-04-01"), ("uid", "u3")],
        [("en", "BadStart"), ("start_date", "not-a-date"), ("end_date", "2025-04-02"), ("uid", "u4")],
        [("en", "BadEnd"), ("start_date", "2025-04-01"), ("end_date", "2025-13-40"), ("uid", "u5")],
        [("en", "Easter"), ("start_date", "2025-04-05"), ("end_date", "2025-04-21"), ("uid", "u6")]])) none =
      Calendar.async_get_events "en" ⟨2025, 1, 1⟩ ⟨2026, 1, 1⟩
        (.ok 200 (some [
          [("en", "Carnival"), ("start_date", "2025-02-15"), ("end_date", "2025-02-23"), ("uid", "u1")],
          [("en", "Easter"), ("start_date", "2025-04-05"), ("end_date", "2025-04-21"), ("uid", "u6")]])) none ∧
    (Calendar.async_get_events "en" ⟨2025, 1, 1⟩ ⟨2026, 1, 1⟩
      (.ok 200 (some [
        [("en", "Carnival"), ("start_date", "2025-02-15"), ("end_date", "2025-02-23"), ("uid", "u1")],
        [("en", "Easter"), ("start_date", "2025-04-05"), ("end_date", "2025-04-21"), ("uid", "u6")]])) none).length = 2 := by
  constructor
  · have h1 := C7_record_isolation
      [[("en", "Carnival"), ("start_date", "2025-02-15"), ("end_date", "2025-02-23"), ("uid", "u1")]]
      [[("en", "NoEnd"), ("start_date", "2025-04-01"), ("uid", "u3")],
       [("en", "BadStart"), ("start_date", "not-a-date"), ("end_date", "2025-04-02"), ("uid", "u4")],
       [("en", "BadEnd"), ("start_date", "2025-04-01"), ("end_date", "2025-13-40"), ("uid", "u5")],
       [("en", "Easter"), ("start_date", "2025-04-05"), ("end_date", "2025-04-21"), ("uid", "u6")]]
      [("en", "NoStart"), ("end_date", "2025-04-02"), ("uid", "u2")]
      "en" ⟨2025, 1, 1⟩ ⟨2026, 1, 1⟩ none (Or.inl (by decide))
    have h2 := C7_record_isolation
      [[("en", "Carnival"), ("start_date", "2025-02-15"), ("end_date", "2025-02-23"), ("uid", "u1")]]
      [[("en", "BadStart"), ("start_date", "not-a-date"), ("end_date", "2025-04-02"), ("uid", "u4")],
       [("en", "BadEnd"), ("start_date", "2025-04-01"), ("end_date", "2025-13-40"), ("uid", "u5")],
       [("en", "Easter"), ("start_date", "2025-04-05"), ("end_date", "2025-04-21"), ("uid", "u6")]]
      [("en", "NoEnd"), ("start_date", "2025-04-01"), ("uid", "u3")]
      "en" ⟨2025, 1, 1⟩ ⟨2026, 1, 1⟩ none (Or.inr (Or.inl (by decide)))
    have h3 := C7_record_isolation
      [[("en", "Carnival"), ("start_date", "2025-02-15"), ("end_date", "2025-02-23"), ("uid", "u1")]]
      [[("en", "BadEnd"), ("start_date", "2025-04-01"), ("end_date", "2025-13-40"), ("uid", "u5")],
       [("en", "Easter"), ("start_date", "2025-04-05"), ("end_date", "2025-04-21"), ("uid", "u6")]]
      [("en", "BadStart"), ("start_date", "not-a-date"), ("end_date", "2025-04-02"), ("uid", "u4")]
      "en" ⟨2025, 1, 1⟩ ⟨2026, 1, 1⟩ none
      (Or.inr (Or.inr (Or.inl ⟨"not-a-date", by decide, by decide⟩)))
    have h4 := C7_record_isolation
      [[("en", "Carnival"), ("start_date", "2025-02-15"), ("end_date", "2025-02-23"), ("uid", "u1")]]
      [[("en", "Easter"), ("start_date", "2025-04-05"), ("end_date", "2025-04-21"), ("uid", "u6")]]
      [("en", "BadEnd"), ("start_date", "2025-04-01"), ("end_date", "2025-13-40"), ("uid", "u5")]
      "en" ⟨2025, 1, 1⟩ ⟨2026, 1, 1⟩ none
      (Or.inr (Or.inr (Or.inr ⟨"2025-13-40", by decide, by decide⟩)))
    exact h1.trans (h2.trans (h3.trans h4))
  · rfl
